import Mathlib

/-!
# Verification of the job-roadmap derivation core

Shallow embedding of `src/frontend/src/components/jobs/JobRoadmapPopup.tsx`:
the roadmap builder (`roadmapSteps`, `totalWeeks`, `totalMonths`), the
resource and milestone generators, and the two-mode view state machine
(`showLearningPath` / `activeSkillIndex` with its event handlers).

JavaScript numbers are modelled as `ℚ` (taxonomy months, step weeks) or
`ℤ` (the active step index); `Math.ceil` is `Int.ceil`, `Math.max` is `max`.
`encodeURIComponent` is embedded byte-for-byte (UTF-8 percent-encoding with
uppercase hex digits, ECMAScript unreserved set); `String.prototype.toLowerCase`
is `String.toLower` (ASCII-equivalent on the characters produced here).
-/

namespace JobRoadmap

/-- The difficulty tier union type `"Easy" | "Medium" | "Hard"`. -/
inductive Difficulty where
  | Easy
  | Medium
  | Hard
deriving DecidableEq, Repr

/-- A skill-taxonomy entry, the external read-only lookup record
`{ difficulty, learningTimeMonths, category }` consumed by the builder.
`learningTimeMonths` is a JS number, modelled as `ℚ`. -/
structure SkillTaxonomyEntry where
  difficulty : Difficulty
  learningTimeMonths : ℚ
  category : String
deriving DecidableEq, Repr

/-- The taxonomy lookup `skillTaxonomy[skill]`: a skill name resolves to an
entry or to `undefined`. -/
def Taxonomy : Type := String → Option SkillTaxonomyEntry

/-- The resource `type` union `"course" | "project" | "article" | "video"`. -/
inductive ResourceType where
  | course
  | project
  | article
  | video
deriving DecidableEq, Repr

/-- `LearningResource` record; `link` is an optional field in the source. -/
structure LearningResource where
  type : ResourceType
  title : String
  provider : String
  duration : String
  link : Option String
deriving DecidableEq, Repr

/-- `RoadmapStep` record. `weeks` is a JS number (`ℚ`): the taxonomy branch
computes `learningTimeMonths * 4` with no rounding. -/
structure RoadmapStep where
  skill : String
  difficulty : Difficulty
  weeks : ℚ
  order : ℕ
  category : String
  resources : List LearningResource
  milestones : List String
deriving DecidableEq, Repr

/-- ECMAScript unreserved characters of `encodeURIComponent`:
`A-Z a-z 0-9 - _ . ! ~ * ' ( )` (checked by code point). -/
def isUnreservedURIChar (c : Char) : Bool :=
  (65 ≤ c.toNat && c.toNat ≤ 90) ||
  (97 ≤ c.toNat && c.toNat ≤ 122) ||
  (48 ≤ c.toNat && c.toNat ≤ 57) ||
  c.toNat == 45 || c.toNat == 95 || c.toNat == 46 || c.toNat == 33 ||
  c.toNat == 126 || c.toNat == 42 || c.toNat == 39 || c.toNat == 40 ||
  c.toNat == 41

/-- Uppercase hexadecimal digit, as emitted by `encodeURIComponent`. -/
def hexDigitChar (n : ℕ) : Char :=
  if n < 10 then Char.ofNat (48 + n) else Char.ofNat (55 + n)

/-- UTF-8 byte sequence of a code point. -/
def utf8Bytes (n : ℕ) : List ℕ :=
  if n < 128 then [n]
  else if n < 2048 then [192 + n / 64, 128 + n % 64]
  else if n < 65536 then [224 + n / 4096, 128 + (n / 64) % 64, 128 + n % 64]
  else [240 + n / 262144, 128 + (n / 4096) % 64, 128 + (n / 64) % 64,
        128 + n % 64]

/-- `%XY` percent-escape of one byte (uppercase hex). -/
def percentEncodeByte (b : ℕ) : List Char :=
  [Char.ofNat 37, hexDigitChar (b / 16), hexDigitChar (b % 16)]

/-- `encodeURIComponent`: unreserved characters pass through, every other
character is percent-encoded as its UTF-8 bytes. -/
def encodeURIComponent (s : String) : String :=
  String.mk ((s.data.map fun c =>
    if isUnreservedURIChar c then [c]
    else (utf8Bytes c.toNat).map percentEncodeByte |>.flatten)).flatten

/-- `generateResources(skill)`: the fixed four-element resource list
(course/Udemy, video/YouTube, project/GitHub, article/Google). -/
def generateResources (skill : String) : List LearningResource :=
  let encodedSkill := encodeURIComponent skill
  [ { type := ResourceType.course,
      title := "Complete " ++ skill ++ " Masterclass",
      provider := "Udemy",
      duration := "20 hours",
      link := some ("https://www.udemy.com/courses/search/?q=" ++ encodedSkill) },
    { type := ResourceType.video,
      title := skill ++ " Crash Course",
      provider := "YouTube",
      duration := "2 hours",
      link := some ("https://www.youtube.com/results?search_query=" ++
        encodedSkill ++ "+tutorial") },
    { type := ResourceType.project,
      title := "Build a " ++ skill ++ " Project",
      provider := "GitHub",
      duration := "10 hours",
      link := some ("https://github.com/topics/" ++ encodedSkill.toLower) },
    { type := ResourceType.article,
      title := skill ++ " Best Practices Guide",
      provider := "Google",
      duration := "30 mins",
      link := some ("https://www.google.com/search?q=" ++ encodedSkill ++
        "+best+practices+guide") } ]

/-- `generateMilestones(skill)`: the fixed four milestone strings. -/
def generateMilestones (skill : String) : List String :=
  [ "Understand " ++ skill ++ " fundamentals and core concepts",
    "Complete hands-on exercises and tutorials",
    "Build a mini-project using " ++ skill,
    "Apply " ++ skill ++ " in a real-world scenario" ]

/-- Line 118: `taxonomy?.difficulty || (skill.length > 8 ? "Hard" :
skill.length > 5 ? "Medium" : "Easy")`. `taxonomy?.difficulty` is the entry
difficulty whenever an entry exists (the difficulty union values are
non-empty strings, hence always truthy), so `||` falls through exactly when
the entry is absent. -/
def stepDifficulty (taxEntry : Option SkillTaxonomyEntry) (skill : String) :
    Difficulty :=
  match taxEntry with
  | some t => t.difficulty
  | none =>
    if skill.length > 8 then Difficulty.Hard
    else if skill.length > 5 then Difficulty.Medium
    else Difficulty.Easy

/-- Line 119: `taxonomy?.learningTimeMonths ? taxonomy.learningTimeMonths * 4
: (difficulty === "Hard" ? 4 : difficulty === "Medium" ? 2 : 1)`. The
condition is falsy when the entry is absent or its months are `0`. -/
def stepWeeks (taxEntry : Option SkillTaxonomyEntry) (difficulty : Difficulty) :
    ℚ :=
  let fallbackWeeks : ℚ :=
    match difficulty with
    | Difficulty.Hard => 4
    | Difficulty.Medium => 2
    | Difficulty.Easy => 1
  match taxEntry with
  | some t =>
    if t.learningTimeMonths ≠ 0 then t.learningTimeMonths * 4
    else fallbackWeeks
  | none => fallbackWeeks

/-- Line 126: `taxonomy?.category || "General"`; the fallback applies when
the entry is absent or its category is the empty string (falsy). -/
def stepCategory (taxEntry : Option SkillTaxonomyEntry) : String :=
  match taxEntry with
  | some t => if t.category = "" then "General" else t.category
  | none => "General"

/-- Body of the `missingSkills.map((skill, index) => ...)` callback
(lines 116-129). -/
def mkRoadmapStep (taxonomy : Taxonomy) (index : ℕ) (skill : String) :
    RoadmapStep :=
  let taxEntry := taxonomy skill
  let difficulty := stepDifficulty taxEntry skill
  let weeks := stepWeeks taxEntry difficulty
  { skill := skill,
    difficulty := difficulty,
    weeks := weeks,
    order := index + 1,
    category := stepCategory taxEntry,
    resources := generateResources skill,
    milestones := generateMilestones skill }

/-- `roadmapSteps = missingSkills.map((skill, index) => ...)`. -/
def roadmapSteps (taxonomy : Taxonomy) (missingSkills : List String) :
    List RoadmapStep :=
  missingSkills.enum.map fun p => mkRoadmapStep taxonomy p.1 p.2

/-- `totalWeeks = roadmapSteps.reduce((acc, step) => acc + step.weeks, 0)`. -/
def totalWeeks (taxonomy : Taxonomy) (missingSkills : List String) : ℚ :=
  (roadmapSteps taxonomy missingSkills).foldl (fun acc step => acc + step.weeks) 0

/-- `totalMonths = Math.ceil(totalWeeks / 4)`. -/
def totalMonths (taxonomy : Taxonomy) (missingSkills : List String) : ℤ :=
  ⌈totalWeeks taxonomy missingSkills / 4⌉

/-- The consumed fields of the host `Job` record. `missingSkills` is read
through `job.missingSkills || []`, so an absent (`undefined`/`null`) value is
modelled as `none`. -/
structure Job where
  title : String
  company : String
  location : String
  matchScore : ℚ
  missingSkills : Option (List String)
  explanation : Option String
  topReason : Option String
  topImprovement : Option String

/-- `const missingSkills = job.missingSkills || [];` (line 114). -/
def jobMissingSkills (job : Job) : List String :=
  job.missingSkills.getD []

/-- The component's React state: `showLearningPath` and `activeSkillIndex`
(`useState(false)` and `useState(0)`); the index is a JS number, modelled
as `ℤ`. -/
structure PopupState where
  showLearningPath : Bool
  activeSkillIndex : ℤ
deriving DecidableEq, Repr

/-- `useState(false)` / `useState(0)`: the state on first mount. -/
def initialPopupState : PopupState :=
  { showLearningPath := false, activeSkillIndex := 0 }

/-- The user-driven events wired to `onClick` handlers: the overview's
"Start My Learning Journey" button, the learning path's "Back to Overview",
"Previous Skill" and "Next Skill" buttons, and the sidebar button of step
`i`. -/
inductive PopupEvent where
  | startJourney
  | backToOverview
  | prevSkill
  | nextSkill
  | selectSkill (i : ℤ)

/-- `showLearningPath && roadmapSteps.length > 0` (line 164): whether the
learning-path view, rather than the overview, is rendered. -/
def learningPathVisible (roadmapLen : ℕ) (s : PopupState) : Bool :=
  s.showLearningPath && decide (0 < roadmapLen)

/-- One synchronous event dispatch. A handler only fires when its button is
rendered and enabled in the current view:
* learning path (line 164): back (line 176) sets `showLearningPath` false;
  previous (lines 355-356) is disabled at index 0 and otherwise runs
  `Math.max(0, activeSkillIndex - 1)`; next (lines 363-365) is rendered only
  while `activeSkillIndex < roadmapSteps.length - 1` and runs
  `activeSkillIndex + 1` (otherwise the terminal "Complete Journey" button
  is shown, which changes no state); the sidebar renders one button per step
  (lines 212-215), so `selectSkill i` fires only for `0 ≤ i < length`.
* overview: "Start My Learning Journey" is rendered only when
  `roadmapSteps.length > 0` (lines 573-577) and sets `showLearningPath`
  true; it does not touch `activeSkillIndex`. -/
def popupStep (roadmapLen : ℕ) (s : PopupState) (e : PopupEvent) : PopupState :=
  if learningPathVisible roadmapLen s then
    match e with
    | PopupEvent.backToOverview => { s with showLearningPath := false }
    | PopupEvent.prevSkill =>
      if s.activeSkillIndex = 0 then s
      else { s with activeSkillIndex := max 0 (s.activeSkillIndex - 1) }
    | PopupEvent.nextSkill =>
      if s.activeSkillIndex < (roadmapLen : ℤ) - 1 then
        { s with activeSkillIndex := s.activeSkillIndex + 1 }
      else s
    | PopupEvent.selectSkill i =>
      if 0 ≤ i ∧ i < (roadmapLen : ℤ) then { s with activeSkillIndex := i }
      else s
    | PopupEvent.startJourney => s
  else
    match e with
    | PopupEvent.startJourney =>
      if 0 < roadmapLen then { s with showLearningPath := true } else s
    | _ => s

/-! ## Basic lemmas about the builder -/

theorem mkRoadmapStep_skill (taxonomy : Taxonomy) (index : ℕ) (skill : String) :
    (mkRoadmapStep taxonomy index skill).skill = skill := rfl

theorem mkRoadmapStep_order (taxonomy : Taxonomy) (index : ℕ) (skill : String) :
    (mkRoadmapStep taxonomy index skill).order = index + 1 := rfl

theorem mkRoadmapStep_difficulty (taxonomy : Taxonomy) (index : ℕ)
    (skill : String) :
    (mkRoadmapStep taxonomy index skill).difficulty =
      stepDifficulty (taxonomy skill) skill := rfl

theorem mkRoadmapStep_weeks (taxonomy : Taxonomy) (index : ℕ) (skill : String) :
    (mkRoadmapStep taxonomy index skill).weeks =
      stepWeeks (taxonomy skill) (stepDifficulty (taxonomy skill) skill) := rfl

theorem mkRoadmapStep_category (taxonomy : Taxonomy) (index : ℕ)
    (skill : String) :
    (mkRoadmapStep taxonomy index skill).category =
      stepCategory (taxonomy skill) := rfl

theorem roadmapSteps_length (taxonomy : Taxonomy) (missingSkills : List String) :
    (roadmapSteps taxonomy missingSkills).length = missingSkills.length := by
  simp [roadmapSteps]

theorem roadmapSteps_getElem? (taxonomy : Taxonomy) (missingSkills : List String)
    (i : ℕ) :
    (roadmapSteps taxonomy missingSkills)[i]? =
      missingSkills[i]?.map (mkRoadmapStep taxonomy i) := by
  simp only [roadmapSteps, List.getElem?_map, List.getElem?_enum,
    Option.map_map]
  rfl

theorem roadmapSteps_nil (taxonomy : Taxonomy) :
    roadmapSteps taxonomy [] = [] := rfl

theorem stepWeeks_pos (taxEntry : Option SkillTaxonomyEntry)
    (difficulty : Difficulty)
    (h : ∀ t, taxEntry = some t → 0 < t.learningTimeMonths) :
    0 < stepWeeks taxEntry difficulty := by
  cases taxEntry with
  | none => cases difficulty <;> norm_num [stepWeeks]
  | some t =>
    have ht := h t rfl
    simp only [stepWeeks, ht.ne', ne_eq, not_false_eq_true, if_true]
    positivity

/-! ## Claim theorems -/

/-- C1: for every input list `missingSkills`, the built roadmap has exactly
one step per input element (duplicates kept), in input order: the step list
has the same length as the input, and at every index `i` the step's `skill`
is `missingSkills[i]` and its `order` is `i + 1`; in particular no
reordering by difficulty, category, or duration ever happens. -/
theorem roadmap_one_step_per_skill_in_input_order (taxonomy : Taxonomy)
    (missingSkills : List String) :
    (roadmapSteps taxonomy missingSkills).length = missingSkills.length ∧
    ∀ i : ℕ,
      (roadmapSteps taxonomy missingSkills)[i]?.map RoadmapStep.skill =
        missingSkills[i]? ∧
      (roadmapSteps taxonomy missingSkills)[i]?.map RoadmapStep.order =
        missingSkills[i]?.map fun _ => i + 1 := by
  refine ⟨roadmapSteps_length taxonomy missingSkills, fun i => ?_⟩
  rw [roadmapSteps_getElem?]
  cases missingSkills[i]? <;>
    simp [mkRoadmapStep_skill, mkRoadmapStep_order]

/-- C2: `totalWeeks` is the sum of the `weeks` fields of all steps and
`totalMonths` is the ceiling of `totalWeeks / 4`; the empty input yields an
empty step list with `totalWeeks = 0` and `totalMonths = 0`. -/
theorem totals_sum_and_ceiling (taxonomy : Taxonomy)
    (missingSkills : List String) :
    totalWeeks taxonomy missingSkills =
      ((roadmapSteps taxonomy missingSkills).map RoadmapStep.weeks).sum ∧
    totalMonths taxonomy missingSkills =
      ⌈totalWeeks taxonomy missingSkills / 4⌉ ∧
    roadmapSteps taxonomy [] = [] ∧
    totalWeeks taxonomy [] = 0 ∧
    totalMonths taxonomy [] = 0 := by
  refine ⟨?_, rfl, rfl, rfl, ?_⟩
  · rw [totalWeeks, ← List.foldl_map (f := RoadmapStep.weeks) (g := (· + ·)),
      List.sum_eq_foldl]
  · show (⌈totalWeeks taxonomy [] / 4⌉ : ℤ) = 0
    norm_num [totalWeeks, roadmapSteps_nil]

/-- Concrete taxonomy for witnesses: the spec's Kubernetes example entry
`{difficulty: "Hard", learningTimeMonths: 2, category: "DevOps"}`. -/
def kubernetesEntry : SkillTaxonomyEntry :=
  { difficulty := Difficulty.Hard, learningTimeMonths := 2,
    category := "DevOps" }

/-- Taxonomy holding only the Kubernetes example entry. -/
def kubernetesTaxonomy : Taxonomy := fun s =>
  if s = "Kubernetes" then some kubernetesEntry else none

/-- Concrete entry with fractional months (`0.6`) and an empty category,
exercising the non-rounding multiplication and the `||`-fallback. -/
def fractionalEntry : SkillTaxonomyEntry :=
  { difficulty := Difficulty.Hard, learningTimeMonths := 3 / 5,
    category := "" }

/-- Taxonomy holding only `fractionalEntry` under the key `"Kubernetes"`. -/
def fractionalTaxonomy : Taxonomy := fun s =>
  if s = "Kubernetes" then some fractionalEntry else none

/-- The everywhere-absent taxonomy. -/
def emptyTaxonomy : Taxonomy := fun _ => none

/-- C3 (amended): for a skill with a taxonomy entry whose
`learningTimeMonths` is positive, the step's difficulty is the entry's
difficulty and its weeks are exactly `learningTimeMonths * 4` — with no
rounding, so the weeks value coincides with
`round_up(learningTimeMonths * 4)` only when that product is an integer;
the step's category is the entry's category provided the category is
non-empty (an empty category falls back to `"General"`). -/
theorem taxonomy_entry_drives_step_fields (taxonomy : Taxonomy) (index : ℕ)
    (skill : String) (t : SkillTaxonomyEntry)
    (htax : taxonomy skill = some t) (hpos : 0 < t.learningTimeMonths) :
    (mkRoadmapStep taxonomy index skill).difficulty = t.difficulty ∧
    (mkRoadmapStep taxonomy index skill).weeks = t.learningTimeMonths * 4 ∧
    (t.category ≠ "" →
      (mkRoadmapStep taxonomy index skill).category = t.category) := by
  refine ⟨?_, ?_, fun hcat => ?_⟩
  · rw [mkRoadmapStep_difficulty, htax, stepDifficulty]
  · rw [mkRoadmapStep_weeks, htax]
    simp [stepWeeks, hpos.ne']
  · rw [mkRoadmapStep_category, htax, stepCategory]
    simp [hcat]

/-- Witness for C3: the spec's Kubernetes entry (2 months, category
"DevOps") yields difficulty Hard, weeks `2 * 4`, category "DevOps". -/
theorem taxonomy_entry_drives_step_fields_witness :
    kubernetesTaxonomy "Kubernetes" = some kubernetesEntry ∧
    (0 : ℚ) < kubernetesEntry.learningTimeMonths ∧
    kubernetesEntry.category ≠ "" ∧
    (mkRoadmapStep kubernetesTaxonomy 0 "Kubernetes").difficulty =
      Difficulty.Hard ∧
    (mkRoadmapStep kubernetesTaxonomy 0 "Kubernetes").weeks =
      kubernetesEntry.learningTimeMonths * 4 ∧
    (mkRoadmapStep kubernetesTaxonomy 0 "Kubernetes").category = "DevOps" :=
  ⟨rfl, by decide, by decide,
    (taxonomy_entry_drives_step_fields kubernetesTaxonomy 0 "Kubernetes"
      kubernetesEntry rfl (by decide)).1,
    (taxonomy_entry_drives_step_fields kubernetesTaxonomy 0 "Kubernetes"
      kubernetesEntry rfl (by decide)).2.1,
    (taxonomy_entry_drives_step_fields kubernetesTaxonomy 0 "Kubernetes"
      kubernetesEntry rfl (by decide)).2.2 (by decide)⟩

/-- Counterexample to C3 as stated: the entry
`{difficulty: Hard, learningTimeMonths: 0.6, category: ""}` has positive
`learningTimeMonths`, yet the step's weeks are `0.6 * 4 = 2.4`, not
`round_up(2.4) = 3`, and the step's category is `"General"`, not the
entry's (empty) category. -/
theorem taxonomy_entry_rounding_cex :
    fractionalTaxonomy "Kubernetes" = some fractionalEntry ∧
    (0 : ℚ) < fractionalEntry.learningTimeMonths ∧
    (mkRoadmapStep fractionalTaxonomy 0 "Kubernetes").weeks = 12 / 5 ∧
    (⌈fractionalEntry.learningTimeMonths * 4⌉ : ℤ) = 3 ∧
    (mkRoadmapStep fractionalTaxonomy 0 "Kubernetes").weeks ≠
      ((⌈fractionalEntry.learningTimeMonths * 4⌉ : ℤ) : ℚ) ∧
    (mkRoadmapStep fractionalTaxonomy 0 "Kubernetes").category ≠
      fractionalEntry.category := by
  have hw : (mkRoadmapStep fractionalTaxonomy 0 "Kubernetes").weeks = 12 / 5 := by
    rw [mkRoadmapStep_weeks]
    show stepWeeks (some fractionalEntry) _ = 12 / 5
    norm_num [stepWeeks, fractionalEntry]
  have hceil : (⌈fractionalEntry.learningTimeMonths * 4⌉ : ℤ) = 3 := by
    rw [show fractionalEntry.learningTimeMonths = 3 / 5 from rfl,
      Int.ceil_eq_iff]
    norm_num
  refine ⟨rfl, by norm_num [fractionalEntry], hw, hceil, ?_, ?_⟩
  · rw [hw, hceil]
    norm_num
  · rw [mkRoadmapStep_category]
    show stepCategory (some fractionalEntry) ≠ _
    simp [stepCategory, fractionalEntry]

/-- C4: with no taxonomy entry, difficulty is derived from the skill-name
length alone (`> 8` → Hard, `6..8` → Medium, `≤ 5` → Easy) and weeks are
then 4, 2, 1 respectively. -/
theorem fallback_classification_by_length (taxonomy : Taxonomy) (index : ℕ)
    (skill : String) (htax : taxonomy skill = none) :
    (8 < skill.length →
      (mkRoadmapStep taxonomy index skill).difficulty = Difficulty.Hard ∧
      (mkRoadmapStep taxonomy index skill).weeks = 4) ∧
    (6 ≤ skill.length → skill.length ≤ 8 →
      (mkRoadmapStep taxonomy index skill).difficulty = Difficulty.Medium ∧
      (mkRoadmapStep taxonomy index skill).weeks = 2) ∧
    (skill.length ≤ 5 →
      (mkRoadmapStep taxonomy index skill).difficulty = Difficulty.Easy ∧
      (mkRoadmapStep taxonomy index skill).weeks = 1) := by
  rw [mkRoadmapStep_difficulty, mkRoadmapStep_weeks, htax]
  refine ⟨fun h8 => ?_, fun h6 h8 => ?_, fun h5 => ?_⟩
  · simp [stepDifficulty, stepWeeks, h8]
  · have h8' : ¬ 8 < skill.length := by omega
    have h5' : 5 < skill.length := by omega
    simp [stepDifficulty, stepWeeks, h8', h5']
  · have h8' : ¬ 8 < skill.length := by omega
    have h5' : ¬ 5 < skill.length := by omega
    simp [stepDifficulty, stepWeeks, h8', h5']

/-- Witness for C4: with an empty taxonomy, "Databases" (9 letters) is Hard
with 4 weeks, "Python" (6) is Medium with 2 weeks, "Go" (2) is Easy with
1 week. -/
theorem fallback_classification_by_length_witness :
    emptyTaxonomy "Databases" = none ∧ 8 < "Databases".length ∧
    (mkRoadmapStep emptyTaxonomy 0 "Databases").difficulty = Difficulty.Hard ∧
    (mkRoadmapStep emptyTaxonomy 0 "Databases").weeks = 4 ∧
    (mkRoadmapStep emptyTaxonomy 1 "Python").difficulty = Difficulty.Medium ∧
    (mkRoadmapStep emptyTaxonomy 1 "Python").weeks = 2 ∧
    (mkRoadmapStep emptyTaxonomy 2 "Go").difficulty = Difficulty.Easy ∧
    (mkRoadmapStep emptyTaxonomy 2 "Go").weeks = 1 :=
  ⟨rfl, by decide,
    ((fallback_classification_by_length emptyTaxonomy 0 "Databases" rfl).1
      (by decide)).1,
    ((fallback_classification_by_length emptyTaxonomy 0 "Databases" rfl).1
      (by decide)).2,
    ((fallback_classification_by_length emptyTaxonomy 1 "Python" rfl).2.1
      (by decide) (by decide)).1,
    ((fallback_classification_by_length emptyTaxonomy 1 "Python" rfl).2.1
      (by decide) (by decide)).2,
    ((fallback_classification_by_length emptyTaxonomy 2 "Go" rfl).2.2
      (by decide)).1,
    ((fallback_classification_by_length emptyTaxonomy 2 "Go" rfl).2.2
      (by decide)).2⟩

/-- C5: `generateResources` returns exactly 4 resources in the fixed order
[course, video, project, article] with providers Udemy, YouTube, GitHub,
Google and durations "20 hours", "2 hours", "10 hours", "30 mins"; each
title interpolates the raw skill name, each link embeds the URL-encoded
skill name, and only the GitHub project link lowercases the encoded
value. -/
theorem generate_resources_fixed_catalogue (skill : String) :
    (generateResources skill).length = 4 ∧
    (generateResources skill).map LearningResource.type =
      [ResourceType.course, ResourceType.video, ResourceType.project,
       ResourceType.article] ∧
    (generateResources skill).map LearningResource.provider =
      ["Udemy", "YouTube", "GitHub", "Google"] ∧
    (generateResources skill).map LearningResource.duration =
      ["20 hours", "2 hours", "10 hours", "30 mins"] ∧
    (generateResources skill).map LearningResource.title =
      ["Complete " ++ skill ++ " Masterclass",
       skill ++ " Crash Course",
       "Build a " ++ skill ++ " Project",
       skill ++ " Best Practices Guide"] ∧
    (generateResources skill).map LearningResource.link =
      [some ("https://www.udemy.com/courses/search/?q=" ++
         encodeURIComponent skill),
       some ("https://www.youtube.com/results?search_query=" ++
         encodeURIComponent skill ++ "+tutorial"),
       some ("https://github.com/topics/" ++
         (encodeURIComponent skill).toLower),
       some ("https://www.google.com/search?q=" ++ encodeURIComponent skill ++
         "+best+practices+guide")] :=
  ⟨rfl, rfl, rfl, rfl, rfl, rfl⟩

/-- C6 (amended): `generateMilestones` returns exactly 4 strings in the
fixed order (fundamentals, exercises, mini-project, real-world scenario);
the first, third and fourth interpolate the skill name, while the second is
the constant string "Complete hands-on exercises and tutorials" that does
not mention the skill. -/
theorem generate_milestones_fixed_templates (skill : String) :
    (generateMilestones skill).length = 4 ∧
    (generateMilestones skill)[0]? =
      some ("Understand " ++ skill ++ " fundamentals and core concepts") ∧
    (generateMilestones skill)[1]? =
      some "Complete hands-on exercises and tutorials" ∧
    (generateMilestones skill)[2]? =
      some ("Build a mini-project using " ++ skill) ∧
    (generateMilestones skill)[3]? =
      some ("Apply " ++ skill ++ " in a real-world scenario") :=
  ⟨rfl, rfl, rfl, rfl, rfl⟩

/-- Counterexample to C6 as stated: for the skill "X", the second milestone
is the fixed exercise string, which does not interpolate the skill name —
it has no occurrence of "X" as a substring. -/
theorem milestone_two_not_interpolated_cex :
    (generateMilestones "X")[1]? =
      some "Complete hands-on exercises and tutorials" ∧
    ¬ ∃ a b : String,
        (generateMilestones "X")[1]? = some (a ++ "X" ++ b) := by
  refine ⟨rfl, ?_⟩
  rintro ⟨a, b, hab⟩
  have h : "Complete hands-on exercises and tutorials" = a ++ "X" ++ b :=
    Option.some.inj ((rfl : (generateMilestones "X")[1]? =
      some "Complete hands-on exercises and tutorials").symm.trans hab)
  have hdata := congrArg String.data h
  simp only [String.data_append] at hdata
  have hmem : (Char.ofNat 88) ∈ a.data ++ [Char.ofNat 88] ++ b.data :=
    List.mem_append.2 (Or.inl (List.mem_append.2 (Or.inr (by decide))))
  rw [← hdata] at hmem
  exact absurd hmem (by decide)

/-- C7 (amended): if every taxonomy entry has positive
`learningTimeMonths`, every step's `weeks` is positive — but not
necessarily an integer, since the taxonomy branch computes
`learningTimeMonths * 4` without rounding. -/
theorem step_weeks_always_positive (taxonomy : Taxonomy)
    (missingSkills : List String)
    (h : ∀ s t, taxonomy s = some t → 0 < t.learningTimeMonths) :
    ∀ step ∈ roadmapSteps taxonomy missingSkills, 0 < step.weeks := by
  intro step hstep
  obtain ⟨p, _, rfl⟩ := List.mem_map.1 hstep
  rw [mkRoadmapStep_weeks]
  exact stepWeeks_pos _ _ fun t ht => h p.2 t ht

/-- Witness for C7: with the Kubernetes-example taxonomy (2 months,
positive), every step of the roadmap for ["Kubernetes", "Go"] has positive
weeks. -/
theorem step_weeks_always_positive_witness :
    (∀ s t, kubernetesTaxonomy s = some t → 0 < t.learningTimeMonths) ∧
    ∀ step ∈ roadmapSteps kubernetesTaxonomy ["Kubernetes", "Go"],
      0 < step.weeks := by
  have hyp : ∀ s t, kubernetesTaxonomy s = some t →
      0 < t.learningTimeMonths := by
    intro s t ht
    by_cases hs : s = "Kubernetes"
    · simp only [kubernetesTaxonomy, hs, if_true, Option.some.injEq] at ht
      rw [← ht]
      decide
    · simp [kubernetesTaxonomy, hs] at ht
  exact ⟨hyp, step_weeks_always_positive kubernetesTaxonomy
    ["Kubernetes", "Go"] hyp⟩

/-- Counterexample to C7 as stated: the entry with
`learningTimeMonths = 0.6` (positive, satisfying the external contract of a
positive number) produces a step whose weeks are `2.4` — positive but not
an integer. -/
theorem step_weeks_not_integer_cex :
    (∀ s t, fractionalTaxonomy s = some t → 0 < t.learningTimeMonths) ∧
    (roadmapSteps fractionalTaxonomy ["Kubernetes"]).map RoadmapStep.weeks =
      [(12 : ℚ) / 5] ∧
    ¬ ∃ n : ℤ, ((12 : ℚ) / 5) = (n : ℚ) := by
  refine ⟨?_, ?_, ?_⟩
  · intro s t ht
    by_cases hs : s = "Kubernetes"
    · simp only [fractionalTaxonomy, hs, if_true, Option.some.injEq] at ht
      rw [← ht]
      norm_num [fractionalEntry]
    · simp [fractionalTaxonomy, hs] at ht
  · show [(mkRoadmapStep fractionalTaxonomy 0 "Kubernetes").weeks] = _
    rw [mkRoadmapStep_weeks]
    show [stepWeeks (some fractionalEntry)
      (stepDifficulty (some fractionalEntry) "Kubernetes")] = _
    norm_num [stepWeeks, fractionalEntry]
  · rintro ⟨n, hn⟩
    have hden := congrArg Rat.den hn
    rw [Rat.den_intCast] at hden
    norm_num at hden

/-- C8 (amended): the Overview → LearningPath transition is refused for an
empty roadmap; on the first entry from the initial state the active index
is 0; on re-entry after a back action the transition fires but preserves
the index held when the learning path was left, rather than resetting it
to 0. -/
theorem start_journey_nonempty_guard (roadmapLen : ℕ) (s : PopupState) :
    popupStep 0 s PopupEvent.startJourney = s ∧
    (0 < roadmapLen →
      popupStep roadmapLen initialPopupState PopupEvent.startJourney =
        { showLearningPath := true, activeSkillIndex := 0 }) ∧
    (s.showLearningPath = false →
      (popupStep roadmapLen s PopupEvent.startJourney).showLearningPath =
        decide (0 < roadmapLen) ∧
      (popupStep roadmapLen s PopupEvent.startJourney).activeSkillIndex =
        s.activeSkillIndex) := by
  obtain ⟨sh, idx⟩ := s
  refine ⟨?_, fun hlen => ?_, fun hsh => ?_⟩
  · simp [popupStep, learningPathVisible]
  · simp [popupStep, learningPathVisible, initialPopupState, hlen]
  · simp only at hsh
    subst hsh
    by_cases hlen : 0 < roadmapLen <;>
      simp [popupStep, learningPathVisible, hlen]

/-- Witness for C8: with a two-step roadmap, the first entry from the
initial state lands on index 0, and entering from an overview state whose
remembered index is 3 keeps index 3. -/
theorem start_journey_nonempty_guard_witness :
    popupStep 0 { showLearningPath := false, activeSkillIndex := 3 }
      PopupEvent.startJourney =
      { showLearningPath := false, activeSkillIndex := 3 } ∧
    popupStep 2 initialPopupState PopupEvent.startJourney =
      { showLearningPath := true, activeSkillIndex := 0 } ∧
    (popupStep 2 { showLearningPath := false, activeSkillIndex := 3 }
      PopupEvent.startJourney).activeSkillIndex = 3 :=
  ⟨(start_journey_nonempty_guard 0
      { showLearningPath := false, activeSkillIndex := 3 }).1,
    (start_journey_nonempty_guard 2 initialPopupState).2.1 (by decide),
    ((start_journey_nonempty_guard 2
      { showLearningPath := false, activeSkillIndex := 3 }).2.2 rfl).2⟩

/-- Counterexample to C8 as stated: with a two-step roadmap, enter the
learning path, advance to index 1, go back to the overview, and re-enter:
the transition fires (the view shows the learning path) but the active
index is 1, not 0. -/
theorem start_journey_reentry_index_cex :
    (popupStep 2 (popupStep 2 (popupStep 2 (popupStep 2 initialPopupState
        PopupEvent.startJourney) PopupEvent.nextSkill)
        PopupEvent.backToOverview) PopupEvent.startJourney).showLearningPath
      = true ∧
    (popupStep 2 (popupStep 2 (popupStep 2 (popupStep 2 initialPopupState
        PopupEvent.startJourney) PopupEvent.nextSkill)
        PopupEvent.backToOverview) PopupEvent.startJourney).activeSkillIndex
      ≠ 0 := by
  decide

/-- C9: inside the learning path with the index in range, `next` moves to
`min(current + 1, roadmapLength - 1)`, `previous` to
`max(current - 1, 0)`, direct sidebar selection of an in-range index lands
exactly there; `previous` at 0 and `next` at the last index change
nothing, and all three navigations keep the index in range. -/
theorem navigation_clamps_index (roadmapLen : ℕ) (s : PopupState) (i : ℤ)
    (hshow : s.showLearningPath = true) (hlen : 0 < roadmapLen)
    (h0 : 0 ≤ s.activeSkillIndex)
    (h1 : s.activeSkillIndex ≤ (roadmapLen : ℤ) - 1) :
    (popupStep roadmapLen s PopupEvent.nextSkill).activeSkillIndex =
      min (s.activeSkillIndex + 1) ((roadmapLen : ℤ) - 1) ∧
    (popupStep roadmapLen s PopupEvent.prevSkill).activeSkillIndex =
      max (s.activeSkillIndex - 1) 0 ∧
    (0 ≤ i → i < (roadmapLen : ℤ) →
      (popupStep roadmapLen s (PopupEvent.selectSkill i)).activeSkillIndex
        = i) ∧
    (s.activeSkillIndex = 0 → popupStep roadmapLen s PopupEvent.prevSkill = s) ∧
    (s.activeSkillIndex = (roadmapLen : ℤ) - 1 →
      popupStep roadmapLen s PopupEvent.nextSkill = s) ∧
    (0 ≤ (popupStep roadmapLen s PopupEvent.nextSkill).activeSkillIndex ∧
      (popupStep roadmapLen s PopupEvent.nextSkill).activeSkillIndex ≤
        (roadmapLen : ℤ) - 1) ∧
    (0 ≤ (popupStep roadmapLen s PopupEvent.prevSkill).activeSkillIndex ∧
      (popupStep roadmapLen s PopupEvent.prevSkill).activeSkillIndex ≤
        (roadmapLen : ℤ) - 1) := by
  obtain ⟨sh, idx⟩ := s
  simp only at hshow h0 h1
  subst hshow
  have hvis : learningPathVisible roadmapLen
      { showLearningPath := true, activeSkillIndex := idx } = true := by
    simp [learningPathVisible, hlen]
  refine ⟨?_, ?_, fun hi0 hi1 => ?_, fun hz => ?_, fun hl => ?_, ?_, ?_⟩ <;>
    simp only [popupStep, hvis, if_true]
  · split_ifs with h <;> simp <;> omega
  · split_ifs with h <;> simp <;> omega
  · simp [hi0, hi1]
  · simp only at hz
    simp [hz]
  · simp only at hl
    split_ifs with h
    · omega
    · rfl
  · split_ifs with h <;> simp <;> omega
  · split_ifs with h <;> simp <;> omega

/-- Witness for C9: with a three-step roadmap and the learning path open at
index 1, next lands on 2, previous on 0, selecting 2 lands on 2; previous
at 0 and next at the last index 2 are no-ops. -/
theorem navigation_clamps_index_witness :
    (popupStep 3 { showLearningPath := true, activeSkillIndex := 1 }
      PopupEvent.nextSkill).activeSkillIndex = 2 ∧
    (popupStep 3 { showLearningPath := true, activeSkillIndex := 1 }
      PopupEvent.prevSkill).activeSkillIndex = 0 ∧
    (popupStep 3 { showLearningPath := true, activeSkillIndex := 1 }
      (PopupEvent.selectSkill 2)).activeSkillIndex = 2 ∧
    popupStep 3 { showLearningPath := true, activeSkillIndex := 0 }
      PopupEvent.prevSkill =
      { showLearningPath := true, activeSkillIndex := 0 } ∧
    popupStep 3 { showLearningPath := true, activeSkillIndex := 2 }
      PopupEvent.nextSkill =
      { showLearningPath := true, activeSkillIndex := 2 } := by
  have h1 := navigation_clamps_index 3
    { showLearningPath := true, activeSkillIndex := 1 } 2 rfl (by decide)
    (by decide) (by decide)
  have h0 := navigation_clamps_index 3
    { showLearningPath := true, activeSkillIndex := 0 } 0 rfl (by decide)
    (by decide) (by decide)
  have h2 := navigation_clamps_index 3
    { showLearningPath := true, activeSkillIndex := 2 } 0 rfl (by decide)
    (by decide) (by decide)
  refine ⟨?_, ?_, h1.2.2.1 (by decide) (by decide), h0.2.2.2.1 rfl,
    h2.2.2.2.2.1 (by decide)⟩
  · rw [h1.1]
    decide
  · rw [h1.2.1]
    decide

/-- C10: an absent `missingSkills` field (`job.missingSkills || []`) is
treated exactly as the empty list: the roadmap is empty with
`totalWeeks = 0` and `totalMonths = 0`, identical to the explicit
empty-input case. -/
theorem absent_missing_skills_like_empty (job : Job) (taxonomy : Taxonomy)
    (h : job.missingSkills = none) :
    jobMissingSkills job = [] ∧
    roadmapSteps taxonomy (jobMissingSkills job) = [] ∧
    totalWeeks taxonomy (jobMissingSkills job) = 0 ∧
    totalMonths taxonomy (jobMissingSkills job) = 0 := by
  have hms : jobMissingSkills job = [] := by
    rw [jobMissingSkills, h]
    rfl
  rw [hms]
  refine ⟨rfl, rfl, rfl, ?_⟩
  show (⌈totalWeeks taxonomy [] / 4⌉ : ℤ) = 0
  norm_num [totalWeeks, roadmapSteps_nil]

/-- A job record whose `missingSkills` field is absent. -/
def sampleJobNoSkills : Job :=
  { title := "Frontend Engineer", company := "Acme", location := "Remote",
    matchScore := 72, missingSkills := none, explanation := none,
    topReason := none, topImprovement := none }

/-- Witness for C10: the sample job with absent `missingSkills` yields the
empty roadmap with zero totals. -/
theorem absent_missing_skills_like_empty_witness :
    sampleJobNoSkills.missingSkills = none ∧
    jobMissingSkills sampleJobNoSkills = [] ∧
    roadmapSteps emptyTaxonomy (jobMissingSkills sampleJobNoSkills) = [] ∧
    totalWeeks emptyTaxonomy (jobMissingSkills sampleJobNoSkills) = 0 ∧
    totalMonths emptyTaxonomy (jobMissingSkills sampleJobNoSkills) = 0 :=
  ⟨rfl,
    (absent_missing_skills_like_empty sampleJobNoSkills emptyTaxonomy rfl).1,
    (absent_missing_skills_like_empty sampleJobNoSkills emptyTaxonomy rfl).2.1,
    (absent_missing_skills_like_empty sampleJobNoSkills emptyTaxonomy
      rfl).2.2.1,
    (absent_missing_skills_like_empty sampleJobNoSkills emptyTaxonomy
      rfl).2.2.2⟩

end JobRoadmap
